import Mathlib

/-!
# Verification of the tech-debt-analyzer scan core

Shallow embedding of the repository's scan orchestrator
(`src/docker_runner.py`), plugin execution engine
(`src/scanner_image/run_checks.py`) and the built-in checks
(`src/scanner_image/plugins/*.py`), with theorems settling the frozen
claims about them.

Conventions of the embedding:
* Python exceptions are values of `PyExn`, carrying the exception class
  (as far as the `except` chain discriminates it) and the text `str(e)`.
* External effects (subprocess, the Docker client, the filesystem) are
  supplied by an `Env` record describing the outcome of each external
  call; the orchestrator is a pure function of its arguments and that
  record, mirroring the Python control flow statement by statement.
* `try/finally` is embedded by computing the try-part's outcome first and
  then applying the `finally` block to the resulting state unconditionally.
-/

namespace TechDebt

/-- Substring test: `strContains hay needle` is Python's `needle in hay`. -/
def strContains (hay needle : String) : Bool :=
  hay.data.tails.any (fun t => needle.data.isPrefixOf t)

/-- One normalized finding, as emitted by every check
(fields `type, file, line, code, message` of the issue dictionaries). -/
structure Issue where
  type : String
  file : String
  line : Nat
  code : String
  message : String
deriving DecidableEq, Repr

/-! ## Orchestrator: `scan_repo_with_docker` (src/docker_runner.py) -/

/-- The exception classes the orchestrator's `except` chain discriminates:
`git.GitCommandError`, `docker.errors.ContainerError`,
`docker.errors.ImageNotFound`, and everything else (`except Exception`). -/
inductive ExnClass where
  | gitCommandError
  | dockerContainerError
  | dockerImageNotFound
  | other
deriving DecidableEq, Repr

/-- A raised Python exception: its class as seen by the handler chain and
its `str(e)` text. -/
structure PyExn where
  cls : ExnClass
  str : String
deriving DecidableEq, Repr

/-- `subprocess.CalledProcessError` raised by the failed `git clone`
(`check=True`): the printed command, the exit status, and the captured
stderr of the clone. -/
structure CloneErr where
  cmd : String
  returncode : Int
  stderrTxt : String
deriving DecidableEq, Repr

/-- `str(e)` of a `subprocess.CalledProcessError`: CPython renders
`"Command '<cmd>' returned non-zero exit status <code>."`; the captured
`stderr` is *not* part of this text. -/
def CloneErr.pyStr (e : CloneErr) : String :=
  "Command " ++ e.cmd ++ " returned non-zero exit status "
    ++ toString e.returncode ++ "."

/-- The exception the failed clone propagates to the handler chain: a
`CalledProcessError` is not a `git.GitCommandError`, a docker
`ContainerError` or an `ImageNotFound`, so its class is `other`. -/
def CloneErr.toExn (e : CloneErr) : PyExn :=
  { cls := .other, str := e.pyStr }

/-- State of the scanner container as the orchestrator's `finally` block
sees it. -/
structure ContainerSt where
  present : Bool
  running : Bool
deriving DecidableEq, Repr

/-- Host-side resources owned by one job: the `job_id`-scoped temp
directory and the container handle (`none` while `"container" not in
locals()`). -/
structure JobSt where
  jobDirExists : Bool
  container : Option ContainerSt
deriving DecidableEq, Repr

/-- Outcomes of the external calls made by one invocation of
`scan_repo_with_docker`. Parsed `results.json` content is abstracted as
its document value (a `String`). -/
structure Env where
  /-- `os.makedirs` for `repo` and `output` succeeded. -/
  mkdirsOk : Bool
  /-- `str(e)` of the exception when `os.makedirs` failed. -/
  mkdirsExnStr : String
  /-- whether the job dir exists after a failed `os.makedirs`. -/
  dirOnMkdirFail : Bool
  /-- `none` = the `git clone` subprocess exited 0. -/
  clone : Option CloneErr
  /-- exception from `docker.from_env()`, if any. -/
  dockerInitExn : Option PyExn
  /-- exception from `client.containers.run(...)`, if any
  (e.g. `ImageNotFound`). -/
  runExn : Option PyExn
  /-- `container.wait(timeout=timeout)`: exit `StatusCode`, or the raised
  exception (a timeout raises with `"Timeout"` in its text). -/
  waitRes : Except PyExn Int
  /-- `container.logs()` decoded. -/
  logsText : String
  /-- `none` = `results.json` absent; `some (.error e)` = present but
  `json.load` raised `e`; `some (.ok d)` = parsed document `d`. -/
  resultsFile : Option (Except PyExn String)

/-- The dictionary `scan_repo_with_docker` returns: either the parsed
scan results, or an error object with an optional `logs` field. -/
inductive ScanRet where
  | scanResults (data : String)
  | errObj (error : String) (logs : Option String)
deriving DecidableEq, Repr

/-- The `error` field of the returned dictionary (`""` for a success
return, which has no such field). -/
def ScanRet.errorField : ScanRet → String
  | .scanResults _ => ""
  | .errObj e _ => e

/-- The `try:` block of `scan_repo_with_docker` (src/docker_runner.py
lines 38-95): returns either a normal return value or the propagating
exception, together with the host state the block leaves behind. -/
def tryBody (env : Env) : Except PyExn ScanRet × JobSt :=
  -- os.makedirs(repo_dir); os.makedirs(output_dir)
  if env.mkdirsOk = false then
    (.error ⟨.other, env.mkdirsExnStr⟩,
      { jobDirExists := env.dirOnMkdirFail, container := none })
  else
    match env.clone with
    | some ce =>
        -- subprocess.run([...], check=True) raised CalledProcessError;
        -- the inner handler logs e.stderr and re-raises
        (.error ce.toExn, { jobDirExists := true, container := none })
    | none =>
      match env.dockerInitExn with
      | some e => (.error e, { jobDirExists := true, container := none })
      | none =>
        match env.runExn with
        | some e => (.error e, { jobDirExists := true, container := none })
        | none =>
          -- container = client.containers.run(..., detach=True)
          match env.waitRes with
          | .error e =>
              -- container.wait raised; the container is still running
              (.error e,
                { jobDirExists := true,
                  container := some { present := true, running := true } })
          | .ok _ =>
            -- normal termination; logs are captured
            match env.resultsFile with
            | some (.ok d) =>
                (.ok (.scanResults d),
                  { jobDirExists := true,
                    container := some { present := true, running := false } })
            | some (.error e) =>
                -- open succeeded but json.load raised
                (.error e,
                  { jobDirExists := true,
                    container := some { present := true, running := false } })
            | none =>
                (.ok (.errObj "results.json not found" (some env.logsText)),
                  { jobDirExists := true,
                    container := some { present := true, running := false } })

/-- The `except` chain of `scan_repo_with_docker` (lines 97-117): the
return value produced for an exception that escapes the `try:` block. -/
def handleExn (scanner_image : String) (timeout : Int) (e : PyExn) : ScanRet :=
  match e.cls with
  | .gitCommandError => .errObj ("Git clone failed: " ++ e.str) none
  | .dockerContainerError => .errObj ("Docker container failed: " ++ e.str) none
  | .dockerImageNotFound =>
      .errObj ("Docker image not found: " ++ scanner_image) none
  | .other =>
      if strContains e.str "Timeout" then
        .errObj ("Scan timed out after " ++ toString timeout ++ " seconds.") none
      else
        .errObj ("An unexpected error occurred: " ++ e.str) none

/-- The `finally:` block (lines 118-135): remove the job directory if it
exists; if the container handle exists and is running, stop it; if it
exists at all, remove it. -/
def finallyBlock (st : JobSt) : JobSt :=
  let st1 : JobSt :=
    if st.jobDirExists then { st with jobDirExists := false } else st
  match st1.container with
  | none => st1
  | some c =>
      let c1 : ContainerSt :=
        if c.running then { c with running := false } else c
      { st1 with container := some { c1 with present := false } }

/-- `scan_repo_with_docker(git_url, scanner_image, timeout)`: the returned
dictionary and the host state after the `finally` block ran. `git_url`
only feeds logging and the clone command, whose outcome `env` supplies. -/
def scan_repo_with_docker (scanner_image : String) (timeout : Int)
    (env : Env) : ScanRet × JobSt :=
  let (r, st) := tryBody env
  let ret : ScanRet :=
    match r with
    | .ok v => v
    | .error e => handleExn scanner_image timeout e
  (ret, finallyBlock st)

/-! ## Plugin execution engine: `main` (src/scanner_image/run_checks.py) -/

/-- One discovered plugin as the engine's loop sees it: its class name and
the outcome of `plugin.run(repo_path)` — a list of issues, or the text of
the exception it raised. -/
structure PluginI where
  name : String
  result : Except String (List Issue)
deriving Repr

/-- One iteration of the engine's plugin loop (run_checks.py lines 43-52):
on success the issues are appended to the accumulator, on an exception an
error line naming the plugin is printed to stderr and nothing is added. -/
def pluginStep (acc : List Issue × List String) (p : PluginI) :
    List Issue × List String :=
  match p.result with
  | .ok issues => (acc.1 ++ issues, acc.2)
  | .error m =>
      (acc.1, acc.2 ++ ["Error running plugin " ++ p.name ++ ": " ++ m])

/-- Observable outcome of the engine process: its exit status, the
artifact written to `/output/results.json` (if any), and the error lines
printed to stderr. -/
structure EngineOut where
  exitCode : Nat
  artifact : Option (List Issue)
  errLog : List String
deriving DecidableEq, Repr

/-- `main()` of run_checks.py: with no plugins it exits 0 immediately;
otherwise it folds the plugin loop and then writes the artifact
(`writeOk` = the `open`/`json.dump` succeeded; on an `IOError` it exits 1
with no artifact). -/
def engineMain (writeOk : Bool) (ps : List PluginI) : EngineOut :=
  if ps.isEmpty then
    { exitCode := 0, artifact := none,
      errLog := ["No plugins found. Exiting."] }
  else
    let r := ps.foldl pluginStep ([], [])
    if writeOk then
      { exitCode := 0, artifact := some r.1, errLog := r.2 }
    else
      { exitCode := 1, artifact := none,
        errLog := r.2 ++ ["Error writing results"] }

/-- Specification-side aggregate: the concatenation, in registration
order, of the issues of the plugins that do not raise. -/
def collectIssues (ps : List PluginI) : List Issue :=
  ps.flatMap fun p =>
    match p.result with
    | .ok issues => issues
    | .error _ => []

/-! ## Stale-comment check: `TodoChecker.run`
(src/scanner_image/plugins/todo_checker.py) -/

/-- The binary-extension denylist `exclude_ext`. -/
def excludeExt : List String :=
  [".png", ".jpg", ".jpeg", ".gif", ".zip", ".tar", ".gz", ".ico",
   ".pdf", ".svg"]

/-- Python's `s.endswith(suffix)`. -/
def strEndsWith (s suffix : String) : Bool :=
  suffix.data.isSuffixOf s.data

/-- The regex alternation `(TODO|FIXME|XXX)`, in pattern order. -/
def todoKeywords : List String := ["TODO", "FIXME", "XXX"]

/-- Case-insensitive prefix match of an (uppercase) pattern against text,
mirroring `re.IGNORECASE` on the keyword characters. -/
def ciPrefix : List Char → List Char → Bool
  | [], _ => true
  | _ :: _, [] => false
  | p :: ps, c :: cs => p == c.toUpper && ciPrefix ps cs

/-- Does `<keyword>:` match at this position? On a hit, returns the
(upper-cased, as the plugin applies `.upper()`) keyword and the text after
the colon — the regex groups 1 and 2. -/
def matchKwAt (cs : List Char) : Option (String × List Char) :=
  todoKeywords.findSome? fun kw =>
    if ciPrefix (kw ++ ":").data cs then
      some (kw, cs.drop (kw.length + 1))
    else none

/-- `re.match(r".*(TODO|FIXME|XXX):(.*)", line)`: the leading greedy `.*`
makes the regex engine take the **last** position in the line where
`<keyword>:` matches; `none` when no position matches. -/
def lastTodoMatch : List Char → Option (String × List Char)
  | [] => none
  | c :: cs =>
      match lastTodoMatch cs with
      | some r => some r
      | none => matchKwAt (c :: cs)

/-- The keyword pattern matches somewhere in the line: the semantics the
leading `.*` of the regex actually gives the check. -/
def kwSomewhere (l : String) : Bool :=
  l.data.tails.any fun t => (matchKwAt t).isSome

/-- One file as `os.walk` hands it to the check: the directory path
(`root`), the file name, and the file's lines (without newlines). -/
structure TFile where
  dir : String
  name : String
  lines : List String
deriving DecidableEq, Repr

/-- `os.path.relpath(os.path.join(root, file), repo_path)`. -/
def relPath (dir name : String) : String :=
  if dir = "" then name else dir ++ "/" ++ name

/-- Python's `str.strip()` on the matched group: drop leading and
trailing whitespace characters. -/
def pyStrip (cs : List Char) : List Char :=
  ((cs.dropWhile Char.isWhitespace).reverse.dropWhile
    Char.isWhitespace).reverse

/-- The issue built for a matching line (todo_checker.py lines 34-44), or
`none` when the line does not match the pattern. -/
def todoLineIssue (path : String) (lineNo : Nat) (line : String) :
    Option Issue :=
  (lastTodoMatch line.data).map fun r =>
    { type := "todo_comment", file := path, line := lineNo,
      code := "FOUND_" ++ r.1, message := String.mk (pyStrip r.2) }

/-- The issues one file contributes: nothing if its `os.walk` root
contains `.git` or its name ends in a denylisted extension, else one
issue per matching line at that line's 1-based number. -/
def todoFileIssues (f : TFile) : List Issue :=
  if strContains f.dir ".git" then []
  else if excludeExt.any (fun e => strEndsWith f.name e) then []
  else
    f.lines.enum.filterMap fun p =>
      todoLineIssue (relPath f.dir f.name) (p.1 + 1) p.2

namespace TodoChecker

/-- `TodoChecker.run(repo_path)` over the repository's file walk. -/
def run (repo : List TFile) : List Issue :=
  repo.flatMap todoFileIssues

end TodoChecker

/-! ## Churn check: `ChurnChecker.run`
(src/scanner_image/plugins/churn_checker.py) -/

/-- The repository's version-control state as the check's subprocess
calls observe it. -/
inductive GitState where
  | noGitDir
  | revParseFail (stderrTxt : String)
  | logFail (stderrTxt : String)
  | logOk (stdoutLines : List String)
deriving DecidableEq, Repr

/-- `file_counts[file] = file_counts.get(file, 0) + 1` on a Python dict,
which preserves insertion order and appends new keys at the end. -/
def bumpCount : List (String × Nat) → String → List (String × Nat)
  | [], f => [(f, 1)]
  | (g, n) :: rest, f =>
      if g = f then (g, n + 1) :: rest else (g, n) :: bumpCount rest f

/-- The `file_counts` dict after the counting loop. -/
def fileCounts (files : List String) : List (String × Nat) :=
  files.foldl bumpCount []

/-- Association-list lookup on the modelled dict, used to state what the
counting loop computes. -/
def alookup (g : String) : List (String × Nat) → Option Nat
  | [] => none
  | (a, n) :: rest => if g = a then some n else alookup g rest

/-- Ordering used by `sorted(file_counts.items(), key=lambda x: x[1],
reverse=True)`: larger counts first. -/
def countGe (a b : String × Nat) : Prop := b.2 ≤ a.2

instance : DecidableRel countGe := fun a b =>
  inferInstanceAs (Decidable (b.2 ≤ a.2))

instance : IsTotal (String × Nat) countGe :=
  ⟨fun a b => (Nat.le_total b.2 a.2).imp id id⟩

instance : IsTrans (String × Nat) countGe :=
  ⟨fun _ _ _ h1 h2 => Nat.le_trans h2 h1⟩

/-- Python's `sorted` with `reverse=True` is a stable descending sort;
insertion sort with `countGe` (ties keep the earlier element first) is
the same stable order. -/
def sortedFiles (files : List String) : List (String × Nat) :=
  List.insertionSort countGe (fileCounts files)

/-- The issue dictionary built for one high-churn file. -/
def churnIssue (f : String) (n : Nat) : Issue :=
  { type := "git_churn", file := f, line := 1, code := "HIGH_CHURN",
    message := "File has a high churn rate with " ++ toString n
      ++ " commits." }

namespace ChurnChecker

/-- `ChurnChecker.run(repo_path)`: no `.git` directory or a failing git
subprocess yields `[]`; otherwise the nonblank lines of
`git log --pretty=format: --name-only` are counted per file, ranked
descending by count, cut to the top 10, and each kept file with count > 5
yields one issue. (The outer `stdout.strip()` only trims whitespace at
the two ends of the stream and is absorbed into the per-line blank
filter.) -/
def run (g : GitState) : List Issue :=
  match g with
  | .noGitDir => []
  | .revParseFail _ => []
  | .logFail _ => []
  | .logOk stdoutLines =>
      let files := stdoutLines.filter (fun l => l.trim != "")
      (((sortedFiles files).take 10).filter (fun p => 5 < p.2)).map
        (fun p => churnIssue p.1 p.2)

end ChurnChecker

/-! ## Coverage check: `CoverageChecker.run`
(src/scanner_image/plugins/coverage_checker.py) -/

/-- Modelled from the spec: the value `ISSUE_TYPES.COVERAGE` imported
from the `constants` module, which is not among the provided sources; the
spec's issue-kind enumeration (§3) names the category `coverage`. Nothing
proved below depends on this value. -/
def ISSUE_TYPES_COVERAGE : String := "coverage"

/-- Parsed `coverage.json`: whether the top-level dict has the keys
`meta` and `totals`, and `data["totals"]["percent_covered"]` when that
lookup succeeds (`none` = the lookup raises, which the check catches). -/
structure CovData where
  hasMeta : Bool
  hasTotals : Bool
  percentCovered : Option ℚ
deriving DecidableEq

/-- State of `<repo>/coverage.json`: absent, present but not valid JSON,
or parsed. -/
inductive CovFile where
  | absent
  | unparseable
  | parsed (d : CovData)
deriving DecidableEq

/-- Round to nearest integer, ties to even — the rounding CPython's
`format(x, '.2f')` applies to the scaled value. -/
def roundHalfEven (q : ℚ) : ℤ :=
  let f := ⌊q⌋
  let r := q - f
  if r < 1/2 then f
  else if 1/2 < r then f + 1
  else if f % 2 = 0 then f else f + 1

/-- Python's `f"{x:.2f}"` for a nonnegative value: two digits after the
decimal point. -/
def fmt2f (q : ℚ) : String :=
  let n := roundHalfEven (q * 100)
  toString (n / 100) ++ "." ++
    (let m := (n % 100).natAbs
     if m < 10 then "0" ++ toString m else toString m)

namespace CoverageChecker

/-- `CoverageChecker.run(repo_path)`: an absent or undecodable
`coverage.json` (and any exception while reading it, such as a missing
`percent_covered` key) yields no issues; a parsed file with both `meta`
and `totals` keys and coverage below 80 yields the single low-coverage
issue. -/
def run (cf : CovFile) : List Issue :=
  match cf with
  | .absent => []
  | .unparseable => []
  | .parsed d =>
      if d.hasMeta && d.hasTotals then
        match d.percentCovered with
        | none => []
        | some p =>
            if p < 80 then
              [{ type := ISSUE_TYPES_COVERAGE, file := "coverage.json",
                 line := 1, code := "LOW_COVERAGE",
                 message := "Test coverage is " ++ fmt2f p
                   ++ "%, which is below the 80% threshold." }]
            else []
      else []

end CoverageChecker

/-- The error lines the engine's plugin loop prints: one line naming the
plugin for each plugin whose `run` raised. -/
def errLines (ps : List PluginI) : List String :=
  ps.flatMap fun p =>
    match p.result with
    | .ok _ => []
    | .error m => ["Error running plugin " ++ p.name ++ ": " ++ m]

/-! ## Helper lemmas -/

theorem finallyBlock_jobDirExists (st : JobSt) :
    (finallyBlock st).jobDirExists = false := by
  rcases st with ⟨jd, c⟩
  rcases c with _ | ⟨p, r⟩
  · cases jd <;> rfl
  · cases jd <;> cases r <;> rfl

theorem unexpected_ne_timeout (s : String) (t : Int) :
    ("An unexpected error occurred: " ++ s : String) ≠
      "Scan timed out after " ++ toString t ++ " seconds." := by
  intro h
  have ha : ("An unexpected error occurred: " ++ s).data.head? = some 'A' := by
    rw [String.data_append]; rfl
  have hb : ("Scan timed out after " ++ toString t
      ++ " seconds.").data.head? = some 'S' := by
    rw [String.data_append, String.data_append]; rfl
  rw [h, hb] at ha
  simp at ha

theorem foldl_pluginStep_eq (ps : List PluginI) :
    ∀ acc : List Issue × List String,
      ps.foldl pluginStep acc =
        (acc.1 ++ collectIssues ps, acc.2 ++ errLines ps) := by
  induction ps with
  | nil => intro acc; simp [collectIssues, errLines]
  | cons p rest ih =>
      intro acc
      rcases hr : p.result with m | issues <;>
        simp [pluginStep, hr, ih, collectIssues, errLines]

/-! ## Claim theorems: orchestrator -/

/-- C1: for every invocation of `scan_repo_with_docker`, however the job
terminates (success, fetch failure, missing or malformed artifact,
timeout, or an unexpected exception), the job's workspace directory does
not exist on the host after the function returns. -/
theorem scan_workspace_removed (si : String) (t : Int) (env : Env) :
    (scan_repo_with_docker si t env).2.jobDirExists = false :=
  finallyBlock_jobDirExists (tryBody env).2

/-- C3 (amended): if the container wait raises a timeout (an exception
not matched by the specific handlers whose text contains `"Timeout"`),
the job result is the error object
`"Scan timed out after <timeout> seconds."` with the configured timeout
interpolated, and after the function returns the container handle is
neither running nor present. -/
theorem scan_timeout_stops_and_removes (si : String) (t : Int) (env : Env)
    (e : PyExn) (hmk : env.mkdirsOk = true) (hcl : env.clone = none)
    (hdi : env.dockerInitExn = none) (hre : env.runExn = none)
    (hw : env.waitRes = .error e) (hcls : e.cls = .other)
    (hts : strContains e.str "Timeout" = true) :
    (scan_repo_with_docker si t env).1 =
      .errObj ("Scan timed out after " ++ toString t ++ " seconds.") none ∧
    (scan_repo_with_docker si t env).2.container =
      some { present := false, running := false } := by
  simp [scan_repo_with_docker, tryBody, finallyBlock, handleExn,
    hmk, hcl, hdi, hre, hw, hcls, hts]

/-- Witness for C3's theorem at a concrete timed-out job. -/
theorem scan_timeout_stops_and_removes_witness :
    (scan_repo_with_docker "scanner-image:latest" 60
      { mkdirsOk := true, mkdirsExnStr := "", dirOnMkdirFail := true,
        clone := none, dockerInitExn := none, runExn := none,
        waitRes := .error ⟨.other,
          "UnixHTTPConnectionPool: Read timed out. (ReadTimeout)"⟩,
        logsText := "", resultsFile := none }).1 =
      .errObj "Scan timed out after 60 seconds." none ∧
    (scan_repo_with_docker "scanner-image:latest" 60
      { mkdirsOk := true, mkdirsExnStr := "", dirOnMkdirFail := true,
        clone := none, dockerInitExn := none, runExn := none,
        waitRes := .error ⟨.other,
          "UnixHTTPConnectionPool: Read timed out. (ReadTimeout)"⟩,
        logsText := "", resultsFile := none }).2.container =
      some { present := false, running := false } :=
  scan_timeout_stops_and_removes "scanner-image:latest" 60 _ _
    rfl rfl rfl rfl rfl rfl (by decide)

/-- C3 counterexample: the timeout error text the code produces is
`"Scan timed out after 60 seconds."`, not the spec's
`"scan timed out after <timeout>"` (under either rendering of the
placeholder). -/
theorem scan_timeout_message_counterexample :
    (scan_repo_with_docker "scanner-image:latest" 60
      { mkdirsOk := true, mkdirsExnStr := "", dirOnMkdirFail := true,
        clone := none, dockerInitExn := none, runExn := none,
        waitRes := .error ⟨.other, "Read timed out. Timeout"⟩,
        logsText := "", resultsFile := none }).1.errorField =
      "Scan timed out after 60 seconds." ∧
    "Scan timed out after 60 seconds." ≠ "scan timed out after 60" ∧
    "Scan timed out after 60 seconds." ≠ "scan timed out after 60 seconds" := by
  decide

/-- C4 (amended): after a normal container termination, presence of
`output_dir/results.json` is the sole success signal — whatever the exit
code, if the file exists its parsed contents are returned, and if it is
absent the result is `{ error: "results.json not found", logs: <captured
container log text> }`. -/
theorem scan_artifact_sole_success_signal (si : String) (t : Int)
    (env : Env) (code : Int) (hmk : env.mkdirsOk = true)
    (hcl : env.clone = none) (hdi : env.dockerInitExn = none)
    (hre : env.runExn = none) (hw : env.waitRes = .ok code) :
    (∀ d, env.resultsFile = some (.ok d) →
        (scan_repo_with_docker si t env).1 = .scanResults d) ∧
    (env.resultsFile = none →
        (scan_repo_with_docker si t env).1 =
          .errObj "results.json not found" (some env.logsText)) := by
  constructor
  · intro d hd
    simp [scan_repo_with_docker, tryBody, hmk, hcl, hdi, hre, hw, hd]
  · intro hd
    simp [scan_repo_with_docker, tryBody, hmk, hcl, hdi, hre, hw, hd]

/-- Witness for C4's theorem: a job whose container exits 1 but leaves an
artifact returns the artifact; one that exits 0 without an artifact
returns the structured error with the logs. -/
theorem scan_artifact_sole_success_signal_witness :
    (scan_repo_with_docker "scanner-image:latest" 60
      { mkdirsOk := true, mkdirsExnStr := "", dirOnMkdirFail := true,
        clone := none, dockerInitExn := none, runExn := none,
        waitRes := .ok 1, logsText := "",
        resultsFile := some (.ok "[]") }).1 = .scanResults "[]" ∧
    (scan_repo_with_docker "scanner-image:latest" 60
      { mkdirsOk := true, mkdirsExnStr := "", dirOnMkdirFail := true,
        clone := none, dockerInitExn := none, runExn := none,
        waitRes := .ok 0, logsText := "CAPTURED",
        resultsFile := none }).1 =
      .errObj "results.json not found" (some "CAPTURED") :=
  ⟨(scan_artifact_sole_success_signal "scanner-image:latest" 60 _ 1
      rfl rfl rfl rfl rfl).1 "[]" rfl,
   (scan_artifact_sole_success_signal "scanner-image:latest" 60 _ 0
      rfl rfl rfl rfl rfl).2 rfl⟩

/-- C4 counterexample: the missing-artifact error text the code produces
is `"results.json not found"`, not the spec's `"results not found"`. -/
theorem scan_missing_artifact_message_counterexample :
    (scan_repo_with_docker "scanner-image:latest" 60
      { mkdirsOk := true, mkdirsExnStr := "", dirOnMkdirFail := true,
        clone := none, dockerInitExn := none, runExn := none,
        waitRes := .ok 0, logsText := "CAPTURED",
        resultsFile := none }).1.errorField = "results.json not found" ∧
    "results.json not found" ≠ "results not found" := by
  decide

/-- C6: a failing `git clone` raises `subprocess.CalledProcessError`,
which none of the specific handlers match (`git.GitCommandError` never
fires, since the clone is run via `subprocess`); the job therefore
returns the generic unexpected-error object, whose text is
`str(CalledProcessError)` and does **not** contain the clone's stderr —
no environment is launched, and teardown still runs. -/
theorem clone_failure_not_fetch_error :
    (scan_repo_with_docker "scanner-image:latest" 60
      { mkdirsOk := true, mkdirsExnStr := "", dirOnMkdirFail := true,
        clone := some
          ⟨"[git, clone, https://example.com/missing.git, /tmp/job/repo]",
           128, "fatal: repository not found"⟩,
        dockerInitExn := none, runExn := none, waitRes := .ok 0,
        logsText := "", resultsFile := none }) =
      (.errObj ("An unexpected error occurred: Command "
          ++ "[git, clone, https://example.com/missing.git, /tmp/job/repo]"
          ++ " returned non-zero exit status 128.") none,
       { jobDirExists := false, container := none }) ∧
    strContains ("An unexpected error occurred: Command "
        ++ "[git, clone, https://example.com/missing.git, /tmp/job/repo]"
        ++ " returned non-zero exit status 128.")
      "fatal: repository not found" = false ∧
    strContains ("An unexpected error occurred: Command "
        ++ "[git, clone, https://example.com/missing.git, /tmp/job/repo]"
        ++ " returned non-zero exit status 128.")
      "Git clone failed" = false := by
  decide

/-- C10: for an exception from the wait step that none of the specific
handlers match, the job is reported as a scan timeout **iff** the
substring `"Timeout"` occurs in `str(e)`; otherwise it is reported as an
unexpected error. -/
theorem timeout_substring_classification (si : String) (t : Int)
    (env : Env) (e : PyExn) (hmk : env.mkdirsOk = true)
    (hcl : env.clone = none) (hdi : env.dockerInitExn = none)
    (hre : env.runExn = none) (hw : env.waitRes = .error e)
    (hcls : e.cls = .other) :
    ((scan_repo_with_docker si t env).1 =
        .errObj ("Scan timed out after " ++ toString t ++ " seconds.") none ↔
      strContains e.str "Timeout" = true) ∧
    (strContains e.str "Timeout" = false →
      (scan_repo_with_docker si t env).1 =
        .errObj ("An unexpected error occurred: " ++ e.str) none) := by
  have hred : (scan_repo_with_docker si t env).1 = handleExn si t e := by
    simp [scan_repo_with_docker, tryBody, hmk, hcl, hdi, hre, hw]
  rw [hred]
  refine ⟨⟨fun h => ?_, fun hts => by simp [handleExn, hcls, hts]⟩,
    fun hts => by simp [handleExn, hcls, hts]⟩
  by_contra hts
  rw [Bool.not_eq_true] at hts
  simp only [handleExn, hcls, hts, Bool.false_eq_true, if_false] at h
  exact unexpected_ne_timeout e.str t (by simpa using h)

/-- Witness for C10's theorem: a non-timeout connection failure whose
text happens to contain `"Timeout"` is classified as a scan timeout. -/
theorem timeout_substring_classification_witness :
    ((scan_repo_with_docker "scanner-image:latest" 60
      { mkdirsOk := true, mkdirsExnStr := "", dirOnMkdirFail := true,
        clone := none, dockerInitExn := none, runExn := none,
        waitRes := .error ⟨.other, "ConnectTimeout: no route to host"⟩,
        logsText := "", resultsFile := none }).1 =
        .errObj "Scan timed out after 60 seconds." none ↔
      strContains "ConnectTimeout: no route to host" "Timeout" = true) ∧
    (strContains "ConnectTimeout: no route to host" "Timeout" = false →
      (scan_repo_with_docker "scanner-image:latest" 60
        { mkdirsOk := true, mkdirsExnStr := "", dirOnMkdirFail := true,
          clone := none, dockerInitExn := none, runExn := none,
          waitRes := .error ⟨.other, "ConnectTimeout: no route to host"⟩,
          logsText := "", resultsFile := none }).1 =
        .errObj ("An unexpected error occurred: "
          ++ "ConnectTimeout: no route to host") none) :=
  timeout_substring_classification "scanner-image:latest" 60
    { mkdirsOk := true, mkdirsExnStr := "", dirOnMkdirFail := true,
      clone := none, dockerInitExn := none, runExn := none,
      waitRes := .error ⟨.other, "ConnectTimeout: no route to host"⟩,
      logsText := "", resultsFile := none }
    ⟨.other, "ConnectTimeout: no route to host"⟩
    rfl rfl rfl rfl rfl rfl

/-! ## Claim theorems: plugin execution engine -/

/-- C2: if one registered check raises, the engine logs it with the
check's identity, that check contributes zero issues, every other check's
issues are still aggregated in order, and the run still exits 0 and still
writes the artifact. -/
theorem engine_check_failure_isolated (pre post : List PluginI)
    (bad : PluginI) (m : String) (hb : bad.result = .error m) :
    (engineMain true (pre ++ bad :: post)).exitCode = 0 ∧
    (engineMain true (pre ++ bad :: post)).artifact =
      some (collectIssues pre ++ collectIssues post) ∧
    ("Error running plugin " ++ bad.name ++ ": " ++ m) ∈
      (engineMain true (pre ++ bad :: post)).errLog := by
  have hne : (pre ++ bad :: post).isEmpty = false :=
    List.isEmpty_eq_false.mpr (by simp)
  have heq : engineMain true (pre ++ bad :: post) =
      { exitCode := 0,
        artifact := some (collectIssues pre ++ collectIssues post),
        errLog := errLines pre
          ++ ("Error running plugin " ++ bad.name ++ ": " ++ m)
            :: errLines post } := by
    simp [engineMain, hne, foldl_pluginStep_eq, pluginStep, collectIssues,
      errLines, List.flatMap_append, hb]
  refine ⟨by rw [heq], by rw [heq], by rw [heq]; simp⟩

/-- Witness for C2's theorem: plugin `B` raises between two healthy
plugins; their issues survive and the failure is logged. -/
theorem engine_check_failure_isolated_witness :
    (engineMain true
      [{ name := "A", result := .ok [⟨"t", "a", 1, "c", "mA"⟩] },
       { name := "B", result := .error "boom" },
       { name := "C", result := .ok [⟨"t", "c", 2, "c", "mC"⟩] }]).exitCode
      = 0 ∧
    (engineMain true
      [{ name := "A", result := .ok [⟨"t", "a", 1, "c", "mA"⟩] },
       { name := "B", result := .error "boom" },
       { name := "C", result := .ok [⟨"t", "c", 2, "c", "mC"⟩] }]).artifact
      = some [⟨"t", "a", 1, "c", "mA"⟩, ⟨"t", "c", 2, "c", "mC"⟩] ∧
    "Error running plugin B: boom" ∈
      (engineMain true
        [{ name := "A", result := .ok [⟨"t", "a", 1, "c", "mA"⟩] },
         { name := "B", result := .error "boom" },
         { name := "C", result := .ok [⟨"t", "c", 2, "c", "mC"⟩] }]).errLog :=
  engine_check_failure_isolated
    [{ name := "A", result := .ok [⟨"t", "a", 1, "c", "mA"⟩] }]
    [{ name := "C", result := .ok [⟨"t", "c", 2, "c", "mC"⟩] }]
    { name := "B", result := .error "boom" } "boom" rfl

/-- C5 (amended): if plugin discovery yields zero checks, the engine
exits with a success status **without writing any artifact** — the
no-plugins branch calls `sys.exit(0)` before the write step. -/
theorem engine_no_plugins_exits_zero (writeOk : Bool) :
    (engineMain writeOk []).exitCode = 0 ∧
    (engineMain writeOk []).artifact = none ∧
    "No plugins found. Exiting." ∈ (engineMain writeOk []).errLog := by
  cases writeOk <;> decide

/-- C5 counterexample: with zero discovered checks the engine exits 0 but
writes no artifact at all — in particular not an empty issue list. -/
theorem engine_no_plugins_counterexample :
    (engineMain true []).exitCode = 0 ∧
    (engineMain true []).artifact = none ∧
    (engineMain true []).artifact ≠ some [] := by
  decide

/-! ## Claim theorems: coverage check -/

/-- C7: a parsed `coverage.json` (with the standard `meta` and `totals`
sections) whose `percent_covered` is 65.5 makes the coverage check emit
exactly one issue, whose message contains the percentage formatted to two
decimal places, `65.50%`. -/
theorem coverage_655_single_issue (d : CovData) (hm : d.hasMeta = true)
    (ht : d.hasTotals = true) (hp : d.percentCovered = some 65.5) :
    (CoverageChecker.run (.parsed d)).length = 1 ∧
    ∀ i ∈ CoverageChecker.run (.parsed d),
      strContains i.message "65.50%" = true := by
  have hlt : (65.5 : ℚ) < 80 := by norm_num
  have hfmt : fmt2f 65.5 = "65.50" := by
    have h100 : (65.5 : ℚ) * 100 = 6550 := by norm_num
    have hfl : ⌊(6550 : ℚ)⌋ = 6550 := by norm_num
    have hround : roundHalfEven ((65.5 : ℚ) * 100) = 6550 := by
      rw [h100]
      simp only [roundHalfEven, hfl]
      norm_num
    simp only [fmt2f, hround]
    decide
  rcases d with ⟨m, t, pc⟩
  dsimp only at hm ht hp
  subst hm; subst ht; subst hp
  have hrun : CoverageChecker.run (.parsed ⟨true, true, some 65.5⟩) =
      [{ type := ISSUE_TYPES_COVERAGE, file := "coverage.json", line := 1,
         code := "LOW_COVERAGE",
         message := "Test coverage is " ++ "65.50"
           ++ "%, which is below the 80% threshold." }] := by
    simp [CoverageChecker.run, hlt, hfmt]
  rw [hrun]
  refine ⟨rfl, ?_⟩
  intro i hi
  simp only [List.mem_singleton] at hi
  subst hi
  decide

/-- Witness for C7's theorem at the concrete parsed report. -/
theorem coverage_655_single_issue_witness :
    (CoverageChecker.run (.parsed ⟨true, true, some 65.5⟩)).length = 1 ∧
    ∀ i ∈ CoverageChecker.run (.parsed ⟨true, true, some 65.5⟩),
      strContains i.message "65.50%" = true :=
  coverage_655_single_issue ⟨true, true, some 65.5⟩ rfl rfl rfl

/-! ## Claim theorems: churn check -/

theorem alookup_bumpCount (l : List (String × Nat)) (f g : String) :
    alookup g (bumpCount l f) =
      if g = f then some ((alookup f l).getD 0 + 1) else alookup g l := by
  induction l with
  | nil => by_cases h : g = f <;> simp [bumpCount, alookup, h]
  | cons p rest ih =>
      rcases p with ⟨a, n⟩
      by_cases haf : a = f
      · subst haf
        by_cases hga : g = a <;> simp [bumpCount, alookup, hga]
      · have hfa : f ≠ a := Ne.symm haf
        by_cases hga : g = a
        · subst hga
          simp [bumpCount, alookup, haf, Ne.symm haf]
        · simp [bumpCount, alookup, haf, hga, hfa, ih]

theorem keys_bumpCount (l : List (String × Nat)) (f : String) :
    (bumpCount l f).map Prod.fst =
      if f ∈ l.map Prod.fst then l.map Prod.fst
      else l.map Prod.fst ++ [f] := by
  induction l with
  | nil => simp [bumpCount]
  | cons p rest ih =>
      rcases p with ⟨a, n⟩
      by_cases haf : a = f
      · subst haf; simp [bumpCount]
      · simp only [bumpCount, if_neg haf, List.map_cons, ih]
        by_cases hf : f ∈ rest.map Prod.fst <;>
          simp [hf, Ne.symm haf]

theorem keys_nodup_foldl (fs : List String) :
    ∀ l : List (String × Nat), (l.map Prod.fst).Nodup →
      ((fs.foldl bumpCount l).map Prod.fst).Nodup := by
  induction fs with
  | nil => intro l h; exact h
  | cons x rest ih =>
      intro l h
      rw [List.foldl_cons]
      refine ih (bumpCount l x) ?_
      rw [keys_bumpCount]
      by_cases hmem : x ∈ l.map Prod.fst
      · simpa [hmem] using h
      · simp [hmem, List.nodup_append, h]

theorem mem_alookup_of_nodup :
    ∀ (l : List (String × Nat)) (f : String) (n : Nat),
      (l.map Prod.fst).Nodup → (f, n) ∈ l → alookup f l = some n := by
  intro l
  induction l with
  | nil => intro f n _ h; simp at h
  | cons p rest ih =>
      rcases p with ⟨a, m⟩
      intro f n hnd hmem
      rcases List.mem_cons.mp hmem with heq | hmem2
      · injection heq with h1 h2
        subst h1; subst h2
        simp [alookup]
      · have hne : f ≠ a := by
          intro hfa
          subst hfa
          rw [List.map_cons, List.nodup_cons] at hnd
          exact hnd.1 (List.mem_map.mpr ⟨(f, n), hmem2, rfl⟩)
        rw [List.map_cons, List.nodup_cons] at hnd
        simp only [alookup, if_neg hne]
        exact ih f n hnd.2 hmem2

theorem alookup_foldl_bumpCount (fs : List String) :
    ∀ (l : List (String × Nat)) (f : String),
      alookup f (fs.foldl bumpCount l) =
        if 0 < fs.count f then some ((alookup f l).getD 0 + fs.count f)
        else alookup f l := by
  induction fs with
  | nil => intro l f; simp
  | cons x rest ih =>
      intro l f
      rw [List.foldl_cons, ih (bumpCount l x) f, alookup_bumpCount]
      by_cases hfx : f = x
      · subst hfx
        have hc : (f :: rest).count f = rest.count f + 1 := by
          simp [List.count_cons]
        rw [hc]
        by_cases h0 : 0 < rest.count f
        · simp only [if_pos h0, if_pos (by omega : 0 < rest.count f + 1),
            eq_self_iff_true, if_true, Option.getD_some]
          congr 1
          omega
        · have hz : rest.count f = 0 := by omega
          simp [hz]
      · have hxf : (x == f) = false := by
          simp [Ne.symm hfx]
        have hc : (x :: rest).count f = rest.count f := by
          simp [List.count_cons, hxf]
        rw [hc, if_neg hfx]

theorem alookup_fileCounts (fs : List String) (f : String) :
    alookup f (fileCounts fs) =
      if f ∈ fs then some (fs.count f) else none := by
  have h := alookup_foldl_bumpCount fs [] f
  rw [show fileCounts fs = fs.foldl bumpCount [] from rfl, h]
  by_cases hm : f ∈ fs
  · rw [if_pos (List.count_pos_iff.mpr hm), if_pos hm]
    simp [alookup]
  · have hz : fs.count f = 0 := by
      rw [List.count_eq_zero]
      exact hm
    simp [alookup, hz, hm]

theorem fileCounts_mem (fs : List String) (p : String × Nat)
    (hp : p ∈ fileCounts fs) : p.2 = fs.count p.1 ∧ p.1 ∈ fs := by
  have hnd : ((fileCounts fs).map Prod.fst).Nodup :=
    keys_nodup_foldl fs [] (by simp)
  have hl := mem_alookup_of_nodup (fileCounts fs) p.1 p.2 hnd hp
  rw [alookup_fileCounts] at hl
  by_cases hm : p.1 ∈ fs
  · rw [if_pos hm] at hl
    injection hl with hl
    exact ⟨hl.symm, hm⟩
  · rw [if_neg hm] at hl
    cases hl

/-- C9: the churn check counts per-file appearances across the full
commit history (the nonblank lines of `git log --name-only`), ranks files
descending by that count, keeps only the top 10, and emits exactly one
issue per kept file whose count is strictly greater than 5, each at line
1; with no `.git` metadata (or a failing git subprocess) it returns `[]`
without raising. -/
theorem churn_run_spec (stdoutLines : List String) :
    ChurnChecker.run .noGitDir = [] ∧
    (∀ s : String, ChurnChecker.run (.revParseFail s) = [] ∧
      ChurnChecker.run (.logFail s) = []) ∧
    (∀ i ∈ ChurnChecker.run (.logOk stdoutLines),
      i.line = 1 ∧ i.code = "HIGH_CHURN" ∧
      ∃ f, f ∈ stdoutLines.filter (fun l => l.trim != "") ∧
        5 < (stdoutLines.filter (fun l => l.trim != "")).count f ∧
        i = churnIssue f
          ((stdoutLines.filter (fun l => l.trim != "")).count f)) ∧
    ((ChurnChecker.run (.logOk stdoutLines)).map Issue.file).Nodup ∧
    (ChurnChecker.run (.logOk stdoutLines)).length ≤ 10 ∧
    ∃ ranking : List (String × Nat),
      ranking.Perm
        (fileCounts (stdoutLines.filter (fun l => l.trim != ""))) ∧
      List.Sorted countGe ranking ∧
      ChurnChecker.run (.logOk stdoutLines) =
        ((ranking.take 10).filter (fun p => 5 < p.2)).map
          (fun p => churnIssue p.1 p.2) := by
  set files := stdoutLines.filter (fun l => l.trim != "") with hfiles
  have hrun : ChurnChecker.run (.logOk stdoutLines) =
      (((sortedFiles files).take 10).filter (fun p => 5 < p.2)).map
        (fun p => churnIssue p.1 p.2) := rfl
  have hperm : (sortedFiles files).Perm (fileCounts files) :=
    List.perm_insertionSort countGe (fileCounts files)
  have hsort : List.Sorted countGe (sortedFiles files) :=
    List.sorted_insertionSort countGe (fileCounts files)
  refine ⟨rfl, fun s => ⟨rfl, rfl⟩, ?_, ?_, ?_,
    ⟨sortedFiles files, hperm, hsort, hrun⟩⟩
  · rw [hrun]
    intro i hi
    rw [List.mem_map] at hi
    obtain ⟨p, hp, rfl⟩ := hi
    have hpt : p ∈ (sortedFiles files).take 10 := List.mem_of_mem_filter hp
    have hp5 : 5 < p.2 := by simpa using List.of_mem_filter hp
    have hpc : p ∈ fileCounts files :=
      hperm.mem_iff.mp (List.mem_of_mem_take hpt)
    have hfc := fileCounts_mem files p hpc
    exact ⟨rfl, rfl, p.1, hfc.2, hfc.1 ▸ hp5, by rw [← hfc.1]⟩
  · rw [hrun, List.map_map]
    have hfeq : (Issue.file ∘ fun p : String × Nat => churnIssue p.1 p.2)
        = Prod.fst := funext fun p => rfl
    rw [hfeq]
    have hnd : ((fileCounts files).map Prod.fst).Nodup :=
      keys_nodup_foldl files [] (by simp)
    have hnds : ((sortedFiles files).map Prod.fst).Nodup :=
      ((hperm.map Prod.fst).symm).nodup hnd
    have hsub : (((sortedFiles files).take 10).filter
        (fun p => 5 < p.2)).Sublist (sortedFiles files) :=
      (List.filter_sublist _).trans (List.take_sublist _ _)
    exact List.Nodup.sublist (hsub.map Prod.fst) hnds
  · rw [hrun, List.length_map]
    calc (((sortedFiles files).take 10).filter
          (fun p => 5 < p.2)).length
        ≤ ((sortedFiles files).take 10).length := List.length_filter_le _ _
      _ ≤ 10 := List.length_take_le _ _

/-! ## Claim theorems: stale-comment check -/

theorem matchKwAt_of_todoLineIssue {path : String} {k : Nat} {l : String}
    {i : Issue} (h : todoLineIssue path k l = some i) :
    i.line = k ∧ i.file = path ∧ (lastTodoMatch l.data).isSome = true := by
  unfold todoLineIssue at h
  cases hm : lastTodoMatch l.data with
  | none => rw [hm] at h; simp at h
  | some r =>
      rw [hm] at h
      simp only [Option.map_some'] at h
      injection h with h
      subst h
      exact ⟨rfl, rfl, rfl⟩

theorem lastTodoMatch_isSome_iff (cs : List Char) :
    (lastTodoMatch cs).isSome
      = cs.tails.any fun t => (matchKwAt t).isSome := by
  induction cs with
  | nil => rfl
  | cons c cs ih =>
      cases hm : lastTodoMatch cs with
      | some r => simp [lastTodoMatch, hm, ← ih]
      | none => simp [lastTodoMatch, hm, ← ih]

theorem todo_enumFrom_mem (path : String) :
    ∀ (ls : List String) (k : Nat) (i : Issue),
      i ∈ (List.enumFrom k ls).filterMap
          (fun p => todoLineIssue path (p.1 + 1) p.2) →
      k + 1 ≤ i.line ∧ i.line ≤ k + ls.length ∧ i.file = path := by
  intro ls
  induction ls with
  | nil => intro k i hi; simp at hi
  | cons l rest ih =>
      intro k i hi
      rw [List.enumFrom_cons, List.filterMap_cons] at hi
      cases hg : todoLineIssue path (k + 1) l with
      | none =>
          rw [hg] at hi
          have h := ih (k + 1) i hi
          refine ⟨by omega, by simp only [List.length_cons]; omega, h.2.2⟩
      | some j =>
          rw [hg] at hi
          rcases List.mem_cons.mp hi with rfl | hi2
          · have hj := matchKwAt_of_todoLineIssue hg
            refine ⟨by omega, ?_, hj.2.1⟩
            simp only [List.length_cons]
            omega
          · have h := ih (k + 1) i hi2
            refine ⟨by omega, by simp only [List.length_cons]; omega, h.2.2⟩

theorem todo_enumFrom_pairwise (path : String) :
    ∀ (ls : List String) (k : Nat),
      List.Pairwise (fun a b : Issue => a.line < b.line)
        ((List.enumFrom k ls).filterMap
          (fun p => todoLineIssue path (p.1 + 1) p.2)) := by
  intro ls
  induction ls with
  | nil => intro k; simp
  | cons l rest ih =>
      intro k
      rw [List.enumFrom_cons, List.filterMap_cons]
      cases hg : todoLineIssue path (k + 1) l with
      | none => exact ih (k + 1)
      | some j =>
          refine List.Pairwise.cons ?_ (ih (k + 1))
          intro b hb
          have hj := matchKwAt_of_todoLineIssue hg
          have hb2 := todo_enumFrom_mem path rest (k + 1) b hb
          rw [hj.1]
          omega

/-- C8 (amended): the stale-comment check scans every file not under a
`.git` path segment and not on the binary-extension denylist, line by
line; a line yields an issue **iff** the pattern `<keyword>:<text>` for
`TODO`, `FIXME` or `XXX` matches case-insensitively *anywhere in the
line* (the regex `.*(TODO|FIXME|XXX):(.*)` has a greedy `.*` prefix, so
it is not anchored at line start); each matching line yields exactly one
issue, at that physical 1-based line number. -/
theorem todo_run_line_characterization (dir name : String)
    (lines : List String) (hgit : strContains dir ".git" = false)
    (hext : excludeExt.any (fun e => strEndsWith name e) = false) :
    (∀ n : Nat,
      (∃ i ∈ TodoChecker.run [⟨dir, name, lines⟩], i.line = n + 1) ↔
      ∃ h : n < lines.length, kwSomewhere (lines.get ⟨n, h⟩) = true) ∧
    List.Pairwise (fun a b : Issue => a.line ≠ b.line)
      (TodoChecker.run [⟨dir, name, lines⟩]) ∧
    (∀ i ∈ TodoChecker.run [⟨dir, name, lines⟩],
      i.file = relPath dir name ∧ 1 ≤ i.line ∧ i.line ≤ lines.length) ∧
    (∀ f : TFile, strContains f.dir ".git" = true →
      TodoChecker.run [f] = []) ∧
    (∀ f : TFile, excludeExt.any (fun e => strEndsWith f.name e) = true →
      TodoChecker.run [f] = []) := by
  have hrun : TodoChecker.run [⟨dir, name, lines⟩] =
      lines.enum.filterMap
        (fun p => todoLineIssue (relPath dir name) (p.1 + 1) p.2) := by
    simp [TodoChecker.run, todoFileIssues, hgit, hext]
  refine ⟨?_, ?_, ?_, ?_, ?_⟩
  · intro n
    rw [hrun]
    constructor
    · rintro ⟨i, hi, hline⟩
      rw [List.mem_filterMap] at hi
      obtain ⟨⟨k, l⟩, hk, hg⟩ := hi
      have hj := matchKwAt_of_todoLineIssue hg
      have hkn : k = n := by omega
      subst hkn
      rw [List.mk_mem_enum_iff_getElem?] at hk
      have hlen : k < lines.length := by
        by_contra hno
        rw [List.getElem?_eq_none (by omega)] at hk
        cases hk
      refine ⟨hlen, ?_⟩
      have hget : lines.get ⟨k, hlen⟩ = l := by
        have h2 := List.getElem?_eq_getElem hlen
        rw [h2] at hk
        exact ((Option.some.injEq _ _).mp hk.symm).symm
      rw [hget]
      have h3 := hj.2.2
      rw [lastTodoMatch_isSome_iff] at h3
      exact h3
    · rintro ⟨h, hkw⟩
      have hsome : (lastTodoMatch (lines.get ⟨n, h⟩).data).isSome = true := by
        rw [lastTodoMatch_isSome_iff]
        exact hkw
      obtain ⟨r, hr⟩ := Option.isSome_iff_exists.mp hsome
      refine ⟨{ type := "todo_comment", file := relPath dir name,
                line := n + 1, code := "FOUND_" ++ r.1,
                message := String.mk (pyStrip r.2) }, ?_, rfl⟩
      rw [List.mem_filterMap]
      refine ⟨(n, lines.get ⟨n, h⟩), ?_, ?_⟩
      · rw [List.mk_mem_enum_iff_getElem?]
        exact List.getElem?_eq_getElem h
      · show todoLineIssue (relPath dir name) (n + 1) (lines.get ⟨n, h⟩)
          = some _
        unfold todoLineIssue
        rw [hr]
        rfl
  · rw [hrun]
    exact (todo_enumFrom_pairwise (relPath dir name) lines 0).imp
      (fun h => Nat.ne_of_lt h)
  · rw [hrun]
    intro i hi
    have h := todo_enumFrom_mem (relPath dir name) lines 0 i hi
    exact ⟨h.2.2, by omega, by have := h.2.1; omega⟩
  · intro f hf
    simp [TodoChecker.run, todoFileIssues, hf]
  · intro f hf
    cases hg : strContains f.dir ".git" <;>
      simp [TodoChecker.run, todoFileIssues, hg, hf]

/-- Witness for C8's theorem on a concrete two-line file. -/
theorem todo_run_line_characterization_witness :
    (∀ n : Nat,
      (∃ i ∈ TodoChecker.run [⟨"src", "a.py", ["# TODO: one", "clean"]⟩],
        i.line = n + 1) ↔
      ∃ h : n < (["# TODO: one", "clean"] : List String).length,
        kwSomewhere ((["# TODO: one", "clean"] : List String).get ⟨n, h⟩)
          = true) ∧
    List.Pairwise (fun a b : Issue => a.line ≠ b.line)
      (TodoChecker.run [⟨"src", "a.py", ["# TODO: one", "clean"]⟩]) ∧
    (∀ i ∈ TodoChecker.run [⟨"src", "a.py", ["# TODO: one", "clean"]⟩],
      i.file = relPath "src" "a.py" ∧ 1 ≤ i.line ∧
        i.line ≤ (["# TODO: one", "clean"] : List String).length) ∧
    (∀ f : TFile, strContains f.dir ".git" = true →
      TodoChecker.run [f] = []) ∧
    (∀ f : TFile, excludeExt.any (fun e => strEndsWith f.name e) = true →
      TodoChecker.run [f] = []) :=
  todo_run_line_characterization "src" "a.py" ["# TODO: one", "clean"]
    (by decide) (by decide)

/-- C8 counterexample: on the line `"x = 1  # TODO: fix"` the keyword is
not at the start of the line (the anchored pattern does not match at
position 0), yet the check emits an issue for it. -/
theorem todo_midline_counterexample :
    TodoChecker.run [⟨"", "a.py", ["x = 1  # TODO: fix"]⟩] =
      [{ type := "todo_comment", file := "a.py", line := 1,
         code := "FOUND_TODO", message := "fix" }] ∧
    matchKwAt "x = 1  # TODO: fix".data = none := by
  decide

end TechDebt
